import Mathlib

/-!
Verification development for src/vue/src/core/vdom/create-component.js,
the component-node lifecycle bridge: the default component VNode hooks
(init, prepatch, insert, destroy), hook installation and merging,
createComponent with its async / invalid / abstract / functional branches,
and the v-model transform.

Modelling conventions: JS objects used as string-keyed maps become ordered
association lists; functions stored as hook callbacks become the inductive
HookFn (the _merged tag is carried by the merged constructor, which only
mergeHook produces); external collaborators (extend, resolveAsyncComponent,
resolveConstructorOptions) are fields of an explicit Ext record; side
effects of the lifecycle hooks on collaborators are recorded as an Effect
trace; machine state of a component instance is the record Instance.
-/

namespace CreateComponentSpec

/-- Lookup in a JS-object-as-association-list by key. -/
def alGet {α : Type} : List (String × α) → String → Option α
  | [], _ => none
  | (k0, v) :: t, k => if k0 = k then some v else alGet t k

/-- Property write on a JS-object-as-association-list: overwrite the first
binding of the key in place, append at the end when the key is fresh. -/
def alSet {α : Type} : List (String × α) → String → α → List (String × α)
  | [], k, v => [(k, v)]
  | (k0, v0) :: t, k, v => if k0 = k then (k, v) :: t else (k0, v0) :: alSet t k v

theorem alGet_alSet_self {α : Type} (l : List (String × α)) (k : String) (v : α) :
    alGet (alSet l k v) k = some v := by
  induction l with
  | nil => simp [alGet, alSet]
  | cons h t ih =>
    obtain ⟨k0, v0⟩ := h
    by_cases hk : k0 = k
    · simp [alGet, alSet, hk]
    · simp [alGet, alSet, hk, ih]

theorem alGet_alSet_ne {α : Type} (l : List (String × α)) (k k2 : String) (v : α)
    (h : k2 ≠ k) : alGet (alSet l k v) k2 = alGet l k2 := by
  have h2 : ¬ k = k2 := fun hh => h hh.symm
  induction l with
  | nil => simp [alGet, alSet, h2]
  | cons hd t ih =>
    obtain ⟨k0, v0⟩ := hd
    by_cases hk : k0 = k
    · subst hk
      simp [alGet, alSet, h2]
    · simp only [alSet, if_neg hk, alGet]
      by_cases hk2 : k0 = k2
      · simp [hk2]
      · simp [hk2, ih]

/-! ## Hook callbacks and the hook registry (installComponentHooks / mergeHook) -/

/-- A hook callback value as stored in data.hook. dflt k is the default
hook componentVNodeHooks[k]; user i is a user-supplied callback
(identified by i); merged f g is the synthetic callback produced by
mergeHook, which carries the _merged tag. -/
inductive HookFn where
  | dflt (k : String)
  | user (id : Nat)
  | merged (f g : HookFn)
deriving DecidableEq

/-- The _merged own-property: true exactly on callbacks built by mergeHook. -/
def HookFn.isMergedTag : HookFn → Bool
  | .merged _ _ => true
  | _ => false

/-- mergeHook(f1, f2): the merged callback invokes f1 then f2 with the same
arguments, and is tagged _merged. -/
def mergeHook (f1 f2 : HookFn) : HookFn := HookFn.merged f1 f2

/-- Invocation trace of a hook callback at arguments (a, b): the leaf
callbacks actually run, in order, each with the arguments it receives. -/
def invoke : HookFn → Nat → Nat → List (HookFn × Nat × Nat)
  | HookFn.dflt k, a, b => [(HookFn.dflt k, a, b)]
  | HookFn.user i, a, b => [(HookFn.user i, a, b)]
  | HookFn.merged f g, a, b => invoke f a b ++ invoke g a b

/-- existing && existing._merged of the loop body in installComponentHooks. -/
def existingMergedTag : Option HookFn → Bool
  | some e => e.isMergedTag
  | none => false

/-- hooksToMerge = Object.keys(componentVNodeHooks). -/
def hooksToMerge : List String := ["init", "prepatch", "insert", "destroy"]

/-- One iteration of the installComponentHooks loop for key k:
if existing !== toMerge and not (existing && existing._merged), store
mergeHook(toMerge, existing) (or toMerge when nothing existed). -/
def installKey (hooks : List (String × HookFn)) (k : String) :
    List (String × HookFn) :=
  if alGet hooks k ≠ some (HookFn.dflt k) ∧
      existingMergedTag (alGet hooks k) = false then
    alSet hooks k (match alGet hooks k with
      | some e => mergeHook (HookFn.dflt k) e
      | none => HookFn.dflt k)
  else hooks

/-- installComponentHooks on the hook map: the loop over hooksToMerge. -/
def installComponentHooksMap (hooks : List (String × HookFn)) :
    List (String × HookFn) :=
  hooksToMerge.foldl installKey hooks

/-! ## Instance state and the four default component VNode hooks -/

/-- The live component instance as far as these hooks observe it:
its identity and the _isMounted / _isDestroyed flags. -/
structure Instance where
  id : Nat
  isMounted : Bool
  isDestroyed : Bool
deriving DecidableEq

/-- A mounted component placeholder VNode (flow type MountedComponentVNode):
it holds a live instance, the keepAlive flag of its data, and the
_isMounted flag of its context (read by the insert hook). -/
structure MVNode where
  componentInstance : Instance
  keepAlive : Bool
  contextMounted : Bool
deriving DecidableEq

/-- A component placeholder VNode as the init hook receives it
(flow type VNodeWithData): componentInstance may still be unset. -/
structure VNodeWithData where
  componentInstance : Option Instance
  keepAlive : Bool
  contextMounted : Bool
deriving DecidableEq

/-- Calls the hooks make on external collaborators, recorded as a trace. -/
inductive Effect where
  | createInstance (instId : Nat)
  | mountInstance (instId : Nat) (hydrating : Bool)
  | updateChildComponent (instId : Nat)
  | callHookMounted (instId : Nat)
  | queueActivatedComponent (instId : Nat)
  | activateChildComponent (instId : Nat)
  | deactivateChildComponent (instId : Nat)
  | destroyTeardown (instId : Nat)
deriving DecidableEq

/-- prepatch(oldVnode, vnode): the new node takes over the old instance
(child = vnode.componentInstance = oldVnode.componentInstance) and
updateChildComponent pushes the new props, listeners, placeholder and
children into that existing instance. -/
def prepatchHook (oldVnode vnode : MVNode) : MVNode × List Effect :=
  let child := oldVnode.componentInstance
  ({ vnode with componentInstance := child },
   [Effect.updateChildComponent child.id])

/-- The else branch of init: createComponentInstanceForVnode builds a fresh
instance (not mounted, not destroyed) parented to the active instance, and
child.$mount is invoked on it. -/
def initCreate (freshId : Nat) (hydrating : Bool) (vnode : VNodeWithData) :
    MVNode × List Effect :=
  let child : Instance := { id := freshId, isMounted := false, isDestroyed := false }
  ({ componentInstance := child, keepAlive := vnode.keepAlive,
     contextMounted := vnode.contextMounted },
   [Effect.createInstance freshId, Effect.mountInstance freshId hydrating])

/-- init(vnode, hydrating): when the node already carries a live
(non-destroyed) instance and data.keepAlive is set, treat as a patch and
delegate to prepatch(mountedNode, mountedNode); otherwise create a fresh
instance and mount it. -/
def initHook (freshId : Nat) (hydrating : Bool) (vnode : VNodeWithData) :
    MVNode × List Effect :=
  match vnode.componentInstance with
  | some i =>
    if i.isDestroyed = false ∧ vnode.keepAlive = true then
      prepatchHook
        { componentInstance := i, keepAlive := vnode.keepAlive,
          contextMounted := vnode.contextMounted }
        { componentInstance := i, keepAlive := vnode.keepAlive,
          contextMounted := vnode.contextMounted }
    else
      initCreate freshId hydrating vnode
  | none => initCreate freshId hydrating vnode

/-- insert(vnode): when the instance has not been mounted yet, set
_isMounted and callHook(componentInstance, mounted); then, in keep-alive
mode, either queue the activation (context already mounted) or activate
the child component directly. -/
def insertHook (vnode : MVNode) : MVNode × List Effect :=
  let ci := vnode.componentInstance
  let mountedStep : Instance × List Effect :=
    if ci.isMounted = false then
      ({ ci with isMounted := true }, [Effect.callHookMounted ci.id])
    else (ci, [])
  let keepAliveStep : List Effect :=
    if vnode.keepAlive = true then
      if vnode.contextMounted = true then
        [Effect.queueActivatedComponent mountedStep.1.id]
      else
        [Effect.activateChildComponent mountedStep.1.id]
    else []
  ({ vnode with componentInstance := mountedStep.1 },
   mountedStep.2 ++ keepAliveStep)

/-- destroy(vnode): when the instance is not already destroyed, either
componentInstance.$destroy() in normal mode (the external teardown sets
_isDestroyed on the instance) or deactivateChildComponent in keep-alive
mode, which leaves the instance alive. -/
def destroyHook (vnode : MVNode) : MVNode × List Effect :=
  let ci := vnode.componentInstance
  if ci.isDestroyed = false then
    if vnode.keepAlive = false then
      ({ vnode with componentInstance := { ci with isDestroyed := true } },
       [Effect.destroyTeardown ci.id])
    else
      (vnode, [Effect.deactivateChildComponent ci.id])
  else (vnode, [])

/-! ## The data model of createComponent -/

/-- options.model of a constructor: declared binding names for v-model. -/
structure ModelOptions where
  prop : Option String
  event : Option String
deriving DecidableEq

/-- The slice of Ctor.options this file reads: name, functional, abstract,
model, and the declared prop names (used by prop extraction). -/
structure COptions where
  name : Option String
  functional : Bool
  abstract : Bool
  model : Option ModelOptions
  props : List String
deriving DecidableEq

/-- A function value passed as a component: a constructor when cid is
defined, an async factory when cid is undefined. -/
structure FnRef where
  cid : Option Nat
  options : COptions
deriving DecidableEq

/-- The Ctor argument of createComponent: undefined, a plain definition
object (kept abstract, identified by a number), a function, or some other
non-object non-function value such as a string. -/
inductive ComponentRef where
  | undef
  | objDef (o : Nat)
  | fn (f : FnRef)
  | otherVal (s : String)
deriving DecidableEq

/-- A listener entry of data.on: a single callback or an array of
callbacks; callbacks are identified by numbers. -/
inductive ListenerVal where
  | single (f : Nat)
  | arr (fs : List Nat)
deriving DecidableEq

/-- data.model: the v-model descriptor with its value and callback. -/
structure ModelDesc where
  value : Int
  callback : Nat
deriving DecidableEq

/-- The VNodeData fields this file reads or writes. -/
structure VNodeData where
  attrs : Option (List (String × Int))
  «on» : Option (List (String × ListenerVal))
  nativeOn : Option (List (String × ListenerVal))
  hook : Option (List (String × HookFn))
  slot : Option String
  model : Option ModelDesc
  keepAlive : Bool
deriving DecidableEq

/-- The fresh empty object data = \x7b\x7d. -/
def VNodeData.empty : VNodeData :=
  { attrs := none, «on» := none, nativeOn := none, hook := none,
    slot := none, model := none, keepAlive := false }

/-- installComponentHooks(data): ensure data.hook exists and merge the
default hooks into it. -/
def installComponentHooks (data : VNodeData) : VNodeData :=
  { data with hook := some (installComponentHooksMap (data.hook.getD [])) }

/-- The JS idiom (x || d) on an optional string: undefined and the empty
string are falsy. -/
def jsOr (x : Option String) (d : String) : String :=
  match x with
  | some s => if s = "" then d else s
  | none => d

/-- The JS idiom (x || d) where the fallback is itself optional. -/
def jsOrOpt (x : Option String) (d : Option String) : Option String :=
  match x with
  | some s => if s = "" then d else some s
  | none => d

/-- if (slot) of the abstract branch: keep the slot only when truthy. -/
def jsSlot : Option String → Option String
  | some s => if s = "" then none else some s
  | none => none

/-- transformModel(options, data): prop and event names default to value
and input; the model value is written to data.attrs[prop]; the callback is
stored under data.on[event], prepended to any existing listener unless the
identical callback is already there. Only called when data.model is
defined; the none branch is unreachable. -/
def transformModel (options : COptions) (data : VNodeData) : VNodeData :=
  match data.model with
  | none => data
  | some m =>
    let prop := jsOr (options.model.bind (fun mo => mo.prop)) "value"
    let event := jsOr (options.model.bind (fun mo => mo.event)) "input"
    let attrs := alSet (data.attrs.getD []) prop m.value
    let onMap := data.«on».getD []
    let callback := m.callback
    let on2 :=
      match alGet onMap event with
      | some (ListenerVal.arr fs) =>
        if fs.contains callback then onMap
        else alSet onMap event (ListenerVal.arr (callback :: fs))
      | some (ListenerVal.single f) =>
        if f = callback then onMap
        else alSet onMap event (ListenerVal.arr [callback, f])
      | none => alSet onMap event (ListenerVal.single callback)
    { data with attrs := some attrs, «on» := some on2 }

/-- Modelled from the spec: extractPropsFromVNodeData lives in
src/core/vdom/helpers, which is not included under src/. Per the spec it
extracts declared inputs from the raw data bag according to the declared
input names of the constructor; we model it as reading each declared prop
name from the attribute bag. -/
def extractPropsFromVNodeData (data : VNodeData) (f : FnRef) :
    List (String × Int) :=
  f.options.props.filterMap
    (fun p => (alGet (data.attrs.getD []) p).map (fun v => (p, v)))

/-- External collaborators of createComponent: baseCtor.extend,
resolveAsyncComponent, and resolveConstructorOptions (which re-resolves
the options of a constructor in place). -/
structure Ext where
  extend : Nat → ComponentRef
  resolveAsync : FnRef → Option FnRef
  resolveCtorOptions : FnRef → COptions

/-- componentOptions of a component placeholder VNode. -/
structure CompOptions where
  Ctor : FnRef
  propsData : List (String × Int)
  listeners : Option (List (String × ListenerVal))
  tag : Option String
  children : List Nat
deriving DecidableEq

/-- The component placeholder VNode built by createComponent. -/
structure CVNode where
  tag : String
  data : VNodeData
  componentOptions : CompOptions
  asyncFactory : Option FnRef
deriving DecidableEq

/-- What createComponent returns: empty is the silent early return on an
undefined Ctor; invalid is the warned return on a non-function definition;
asyncPlaceholder is createAsyncPlaceholder on a not-yet-resolved factory;
functionalComponent stands for the createFunctionalComponent delegation;
vnode is the component placeholder VNode. -/
inductive CCResult where
  | empty
  | invalid
  | asyncPlaceholder (factory : FnRef) (data : Option VNodeData)
      (children : List Nat) (tag : Option String)
  | functionalComponent (f : FnRef) (propsData : List (String × Int))
      (data : VNodeData) (children : List Nat)
  | vnode (v : CVNode)
deriving DecidableEq

/-- String form of Ctor.cid in the VNode tag. -/
def cidStr : Option Nat → String
  | some n => toString n
  | none => "undefined"

/-- The (name ? -name : empty) part of the VNode tag. -/
def nameSuffix : Option String → String
  | some s => if s = "" then "" else "-" ++ s
  | none => ""

/-- The body of createComponent after async resolution: data defaulting,
resolveConstructorOptions, transformModel, prop extraction, the functional
branch, listener separation (listeners = data.on; data.on = data.nativeOn),
the abstract strip, installComponentHooks, and the VNode construction.
The weex recycle-list branch is compiled out of the web build and omitted. -/
def createComponentMain (ext : Ext) (f0 : FnRef) (asyncFactory : Option FnRef)
    (data0 : Option VNodeData) (children : List Nat) (tag : Option String) :
    CCResult :=
  let data1 := data0.getD VNodeData.empty
  let f : FnRef := { f0 with options := ext.resolveCtorOptions f0 }
  let data2 := if data1.model.isSome then transformModel f.options data1 else data1
  let propsData := extractPropsFromVNodeData data2 f
  if f.options.functional = true then
    CCResult.functionalComponent f propsData data2 children
  else
    let listeners := data2.«on»
    let data3 := { data2 with «on» := data2.nativeOn }
    let data4 :=
      if f.options.abstract = true then
        { VNodeData.empty with slot := jsSlot data3.slot }
      else data3
    let data5 := installComponentHooks data4
    let name := jsOrOpt f.options.name tag
    CCResult.vnode
      { tag := "vue-component-" ++ cidStr f.cid ++ nameSuffix name,
        data := data5,
        componentOptions :=
          { Ctor := f, propsData := propsData, listeners := listeners,
            tag := tag, children := children },
        asyncFactory := asyncFactory }

/-- The plain-options-object normalization: if isObject(Ctor) then
Ctor = baseCtor.extend(Ctor). -/
def normalizeRef (ext : Ext) (c : ComponentRef) : ComponentRef :=
  match c with
  | ComponentRef.objDef o => ext.extend o
  | x => x

/-- createComponent(Ctor, data, context, children, tag): undefined Ctor
returns silently; a definition object is compiled through extend; anything
still not a function is warned about and rejected; a function without cid
is an async factory, resolved to either undefined (async placeholder) or a
ready constructor; then the main body runs. -/
def createComponent (ext : Ext) (ctor0 : ComponentRef)
    (data0 : Option VNodeData) (children : List Nat) (tag : Option String) :
    CCResult :=
  match ctor0 with
  | ComponentRef.undef => CCResult.empty
  | c0 =>
    match normalizeRef ext c0 with
    | ComponentRef.fn f0 =>
      if f0.cid = none then
        match ext.resolveAsync f0 with
        | none => CCResult.asyncPlaceholder f0 data0 children tag
        | some f1 => createComponentMain ext f1 (some f0) data0 children tag
      else
        createComponentMain ext f0 none data0 children tag
    | _ => CCResult.invalid

/-- Listeners of the built node, when one was built. -/
def ccResultListeners : CCResult → Option (List (String × ListenerVal))
  | CCResult.vnode v => v.componentOptions.listeners
  | _ => none

/-- data.on of the built node, when one was built. -/
def ccResultDataOn : CCResult → Option (List (String × ListenerVal))
  | CCResult.vnode v => v.data.«on»
  | _ => none

/-- propsData of the built node, when one was built. -/
def ccResultPropsData : CCResult → List (String × Int)
  | CCResult.vnode v => v.componentOptions.propsData
  | _ => []

/-- asyncFactory slot of the built node, when one was built. -/
def ccResultAsyncFactory : CCResult → Option FnRef
  | CCResult.vnode v => v.asyncFactory
  | _ => none

/-! ## Helper predicates and lemmas -/

/-- True on the callHookMounted effect: the mounted lifecycle notification. -/
def isCallMounted : Effect → Bool
  | Effect.callHookMounted _ => true
  | _ => false

/-- A hook-map entry as installation leaves it at its own key: the default
hook or a merged callback. -/
def goodEntry (k : String) (o : Option HookFn) : Prop :=
  o = some (HookFn.dflt k) ∨ ∃ f g, o = some (HookFn.merged f g)

theorem installKey_goodEntry (hooks : List (String × HookFn)) (k : String) :
    goodEntry k (alGet (installKey hooks k) k) := by
  unfold installKey
  by_cases hc : alGet hooks k ≠ some (HookFn.dflt k) ∧
      existingMergedTag (alGet hooks k) = false
  · rw [if_pos hc]
    cases he : alGet hooks k with
    | none => left; simp [he, alGet_alSet_self]
    | some e =>
      right
      exact ⟨HookFn.dflt k, e, by simp [he, alGet_alSet_self, mergeHook]⟩
  · rw [if_neg hc]
    rw [not_and_or] at hc
    rcases hc with hc | hc
    · left
      exact not_not.mp hc
    · cases he : alGet hooks k with
      | none => rw [he] at hc; simp [existingMergedTag] at hc
      | some e =>
        cases e with
        | merged f g => right; exact ⟨f, g, rfl⟩
        | dflt k0 =>
          rw [he] at hc; simp [existingMergedTag, HookFn.isMergedTag] at hc
        | user u =>
          rw [he] at hc; simp [existingMergedTag, HookFn.isMergedTag] at hc

theorem installKey_preserves_ne (hooks : List (String × HookFn)) (k k2 : String)
    (h : k2 ≠ k) : alGet (installKey hooks k) k2 = alGet hooks k2 := by
  unfold installKey
  split
  · exact alGet_alSet_ne _ _ _ _ h
  · rfl

theorem installKey_noop (hooks : List (String × HookFn)) (k : String)
    (hg : goodEntry k (alGet hooks k)) : installKey hooks k = hooks := by
  unfold installKey
  rcases hg with h | ⟨f, g, h⟩
  · rw [if_neg]
    intro hc
    exact hc.1 h
  · rw [if_neg]
    intro hc
    rw [h] at hc
    simp [existingMergedTag, HookFn.isMergedTag] at hc

theorem installKey_goodEntry_preserve (hooks : List (String × HookFn))
    (k k2 : String) (hg : goodEntry k (alGet hooks k)) :
    goodEntry k (alGet (installKey hooks k2) k) := by
  by_cases h : k = k2
  · subst h
    exact installKey_goodEntry hooks k
  · rw [installKey_preserves_ne hooks k2 k h]
    exact hg

theorem foldl_installKey_good (ks : List String) (hooks : List (String × HookFn))
    (k : String) (h : k ∈ ks ∨ goodEntry k (alGet hooks k)) :
    goodEntry k (alGet (ks.foldl installKey hooks) k) := by
  induction ks generalizing hooks with
  | nil =>
    rcases h with h | h
    · cases h
    · exact h
  | cons k1 t ih =>
    simp only [List.foldl]
    apply ih
    rcases h with h | h
    · rcases List.mem_cons.mp h with h | h
      · subst h
        right
        exact installKey_goodEntry hooks k
      · left; exact h
    · right
      exact installKey_goodEntry_preserve hooks k k1 h

theorem foldl_installKey_noop (ks : List String) (hooks : List (String × HookFn))
    (h : ∀ k ∈ ks, goodEntry k (alGet hooks k)) :
    ks.foldl installKey hooks = hooks := by
  induction ks with
  | nil => rfl
  | cons k1 t ih =>
    have h1 : installKey hooks k1 = hooks := installKey_noop hooks k1 (h k1 (by simp))
    simp only [List.foldl, h1]
    exact ih (fun k hk => h k (by simp [hk]))

theorem foldl_installKey_merged (ks : List String) (hooks : List (String × HookFn))
    (k : String) (f g : HookFn) (h : alGet hooks k = some (HookFn.merged f g)) :
    alGet (ks.foldl installKey hooks) k = some (HookFn.merged f g) := by
  induction ks generalizing hooks with
  | nil => exact h
  | cons k1 t ih =>
    simp only [List.foldl]
    apply ih
    by_cases hk : k = k1
    · subst hk
      rw [installKey_noop hooks k (Or.inr ⟨f, g, h⟩)]
      exact h
    · rw [installKey_preserves_ne hooks k1 k hk]
      exact h

theorem installComponentHooksMap_good (hooks : List (String × HookFn))
    (k : String) (hk : k ∈ hooksToMerge) :
    goodEntry k (alGet (installComponentHooksMap hooks) k) :=
  foldl_installKey_good hooksToMerge hooks k (Or.inl hk)

theorem installComponentHooksMap_idem (hooks : List (String × HookFn)) :
    installComponentHooksMap (installComponentHooksMap hooks)
      = installComponentHooksMap hooks :=
  foldl_installKey_noop hooksToMerge _
    (fun k hk => installComponentHooksMap_good hooks k hk)

theorem installKey_user_set (hooks : List (String × HookFn)) (k : String) (u : Nat)
    (hu : alGet hooks k = some (HookFn.user u)) :
    alGet (installKey hooks k) k
      = some (mergeHook (HookFn.dflt k) (HookFn.user u)) := by
  unfold installKey
  rw [if_pos]
  · simp [hu, alGet_alSet_self, mergeHook]
  · constructor
    · rw [hu]; simp
    · rw [hu]; simp [existingMergedTag, HookFn.isMergedTag]

theorem installMap_user (hooks : List (String × HookFn)) (k : String) (u : Nat)
    (hk : k ∈ hooksToMerge) (hu : alGet hooks k = some (HookFn.user u)) :
    alGet (installComponentHooksMap hooks) k
      = some (mergeHook (HookFn.dflt k) (HookFn.user u)) := by
  have hunf : installComponentHooksMap hooks
      = installKey (installKey (installKey (installKey hooks "init")
          "prepatch") "insert") "destroy" := rfl
  rw [hunf]
  simp only [hooksToMerge, List.mem_cons, List.not_mem_nil, or_false] at hk
  rcases hk with hk | hk | hk | hk
  · subst hk
    rw [installKey_preserves_ne _ _ _ (by decide),
        installKey_preserves_ne _ _ _ (by decide),
        installKey_preserves_ne _ _ _ (by decide)]
    exact installKey_user_set hooks _ u hu
  · subst hk
    rw [installKey_preserves_ne _ _ _ (by decide),
        installKey_preserves_ne _ _ _ (by decide)]
    apply installKey_user_set
    rw [installKey_preserves_ne _ _ _ (by decide)]
    exact hu
  · subst hk
    rw [installKey_preserves_ne _ _ _ (by decide)]
    apply installKey_user_set
    rw [installKey_preserves_ne _ _ _ (by decide),
        installKey_preserves_ne _ _ _ (by decide)]
    exact hu
  · subst hk
    apply installKey_user_set
    rw [installKey_preserves_ne _ _ _ (by decide),
        installKey_preserves_ne _ _ _ (by decide),
        installKey_preserves_ne _ _ _ (by decide)]
    exact hu

/-! ## The claims -/

/-- C3: Instance identity across update. After prepatch(N1, N2) the new
node holds the identical componentInstance as N1, and the effect trace is
exactly one updateChildComponent call pushing the updated inputs,
listeners, placeholder and children into that existing instance: no
instance is constructed and none is destroyed. -/
theorem prepatch_instance_identity (n1 n2 : MVNode) :
    (prepatchHook n1 n2).1.componentInstance = n1.componentInstance ∧
    (prepatchHook n1 n2).2
      = [Effect.updateChildComponent n1.componentInstance.id] :=
  ⟨rfl, rfl⟩

/-- C1: Keep-alive round trip. On a keep-alive node with a live instance,
destroy leaves the node and instance unchanged (the _isDestroyed flag is
not set; the only effect is deactivateChildComponent), and a subsequent
init on a node still holding that same live instance delegates to
prepatch(node, node): the instance is reused, updateChildComponent is the
only effect, and no new instance is constructed. -/
theorem keepAlive_round_trip (m : MVNode) (freshId : Nat) (hydrating : Bool)
    (hk : m.keepAlive = true)
    (hd : m.componentInstance.isDestroyed = false) :
    (destroyHook m).1 = m ∧
    (destroyHook m).1.componentInstance.isDestroyed = false ∧
    (destroyHook m).2
      = [Effect.deactivateChildComponent m.componentInstance.id] ∧
    initHook freshId hydrating
      { componentInstance := some m.componentInstance,
        keepAlive := m.keepAlive, contextMounted := m.contextMounted }
      = prepatchHook m m ∧
    (initHook freshId hydrating
      { componentInstance := some m.componentInstance,
        keepAlive := m.keepAlive,
        contextMounted := m.contextMounted }).1.componentInstance
      = m.componentInstance ∧
    (initHook freshId hydrating
      { componentInstance := some m.componentInstance,
        keepAlive := m.keepAlive, contextMounted := m.contextMounted }).2
      = [Effect.updateChildComponent m.componentInstance.id] := by
  obtain ⟨ci, ka, cm⟩ := m
  simp only at hk hd
  subst hk
  refine ⟨?_, ?_, ?_, ?_, ?_, ?_⟩ <;>
    simp [destroyHook, initHook, prepatchHook, hd]

/-- C1 witness: the round trip evaluated on a concrete keep-alive node
holding instance 7. -/
theorem keepAlive_round_trip_witness :
    (destroyHook ⟨⟨7, true, false⟩, true, true⟩).1
      = (⟨⟨7, true, false⟩, true, true⟩ : MVNode) ∧
    (destroyHook ⟨⟨7, true, false⟩, true, true⟩).1.componentInstance.isDestroyed
      = false ∧
    (destroyHook ⟨⟨7, true, false⟩, true, true⟩).2
      = [Effect.deactivateChildComponent
          (⟨⟨7, true, false⟩, true, true⟩ : MVNode).componentInstance.id] ∧
    initHook 3 false
      { componentInstance :=
          some (⟨⟨7, true, false⟩, true, true⟩ : MVNode).componentInstance,
        keepAlive := (⟨⟨7, true, false⟩, true, true⟩ : MVNode).keepAlive,
        contextMounted :=
          (⟨⟨7, true, false⟩, true, true⟩ : MVNode).contextMounted }
      = prepatchHook ⟨⟨7, true, false⟩, true, true⟩
          ⟨⟨7, true, false⟩, true, true⟩ ∧
    (initHook 3 false
      { componentInstance :=
          some (⟨⟨7, true, false⟩, true, true⟩ : MVNode).componentInstance,
        keepAlive := (⟨⟨7, true, false⟩, true, true⟩ : MVNode).keepAlive,
        contextMounted :=
          (⟨⟨7, true, false⟩, true, true⟩ : MVNode).contextMounted
       }).1.componentInstance
      = (⟨⟨7, true, false⟩, true, true⟩ : MVNode).componentInstance ∧
    (initHook 3 false
      { componentInstance :=
          some (⟨⟨7, true, false⟩, true, true⟩ : MVNode).componentInstance,
        keepAlive := (⟨⟨7, true, false⟩, true, true⟩ : MVNode).keepAlive,
        contextMounted :=
          (⟨⟨7, true, false⟩, true, true⟩ : MVNode).contextMounted }).2
      = [Effect.updateChildComponent
          (⟨⟨7, true, false⟩, true, true⟩ : MVNode).componentInstance.id] :=
  keepAlive_round_trip ⟨⟨7, true, false⟩, true, true⟩ 3 false rfl rfl

/-- C2: Mounted-once. The first insert fires at most one mounted
notification and leaves _isMounted true; a second insert on the resulting
node fires none; an already-mounted instance is never re-notified; and the
flag is touched only inside insert: prepatch and destroy preserve it and
never fire mounted, while instance creation starts it at false. -/
theorem insert_mounted_once (m old new : MVNode) (v : VNodeWithData)
    (freshId : Nat) (hydrating : Bool) :
    ((insertHook m).2.filter isCallMounted).length ≤ 1 ∧
    (insertHook m).1.componentInstance.isMounted = true ∧
    (insertHook (insertHook m).1).2.filter isCallMounted = [] ∧
    (prepatchHook old new).1.componentInstance.isMounted
      = old.componentInstance.isMounted ∧
    (prepatchHook old new).2.filter isCallMounted = [] ∧
    (destroyHook m).1.componentInstance.isMounted
      = m.componentInstance.isMounted ∧
    (destroyHook m).2.filter isCallMounted = [] ∧
    (initCreate freshId hydrating v).1.componentInstance.isMounted = false := by
  obtain ⟨⟨mid, mm, md⟩, ka, cm⟩ := m
  refine ⟨?_, ?_, ?_, ?_, ?_, ?_, ?_, ?_⟩ <;>
    cases mm <;> cases md <;> cases ka <;> cases cm <;>
      simp [insertHook, prepatchHook, destroyHook, initCreate, isCallMounted]

/-- C4: Idempotent hook installation. An entry already tagged as a prior
merge is left unchanged by installation (the synthetic merged callback is
never re-wrapped), and installing the default hook set a second time
returns the very same hook map, both on the raw hook map and through
installComponentHooks on a whole data bag, so no invocation is doubled. -/
theorem hooks_install_idempotent (data : VNodeData)
    (hooks : List (String × HookFn)) (k : String) (f g : HookFn)
    (hm : alGet hooks k = some (HookFn.merged f g)) :
    alGet (installComponentHooksMap hooks) k = some (HookFn.merged f g) ∧
    installComponentHooksMap (installComponentHooksMap hooks)
      = installComponentHooksMap hooks ∧
    installComponentHooks (installComponentHooks data)
      = installComponentHooks data := by
  refine ⟨foldl_installKey_merged hooksToMerge hooks k f g hm,
    installComponentHooksMap_idem hooks, ?_⟩
  simp [installComponentHooks, installComponentHooksMap_idem]

/-- C4 witness: installation on a map whose insert entry is already a
merged callback, and double installation on an empty data bag. -/
theorem hooks_install_idempotent_witness :
    alGet (installComponentHooksMap
        [("insert", HookFn.merged (HookFn.dflt "insert") (HookFn.user 4))])
        "insert"
      = some (HookFn.merged (HookFn.dflt "insert") (HookFn.user 4)) ∧
    installComponentHooksMap (installComponentHooksMap
        [("insert", HookFn.merged (HookFn.dflt "insert") (HookFn.user 4))])
      = installComponentHooksMap
        [("insert", HookFn.merged (HookFn.dflt "insert") (HookFn.user 4))] ∧
    installComponentHooks (installComponentHooks VNodeData.empty)
      = installComponentHooks VNodeData.empty :=
  hooks_install_idempotent VNodeData.empty
    [("insert", HookFn.merged (HookFn.dflt "insert") (HookFn.user 4))]
    "insert" (HookFn.dflt "insert") (HookFn.user 4) rfl

/-- C5: Merge ordering. When a hook name carries a user-supplied callback
(neither the default nor a prior merge), installation replaces it by the
synthetic mergeHook callback, and invoking that merged callback on
arguments (a, b) runs the default hook first and the user hook second,
each exactly once, each receiving (a, b). -/
theorem merge_ordering (hooks : List (String × HookFn)) (k : String)
    (u a b : Nat) (hk : k ∈ hooksToMerge)
    (hu : alGet hooks k = some (HookFn.user u)) :
    alGet (installComponentHooksMap hooks) k
      = some (mergeHook (HookFn.dflt k) (HookFn.user u)) ∧
    invoke (mergeHook (HookFn.dflt k) (HookFn.user u)) a b
      = [(HookFn.dflt k, a, b), (HookFn.user u, a, b)] :=
  ⟨installMap_user hooks k u hk hu, rfl⟩

/-- C5 witness: a user insert hook merged with the default insert hook,
invoked at (1, 2). -/
theorem merge_ordering_witness :
    alGet (installComponentHooksMap [("insert", HookFn.user 9)]) "insert"
      = some (mergeHook (HookFn.dflt "insert") (HookFn.user 9)) ∧
    invoke (mergeHook (HookFn.dflt "insert") (HookFn.user 9)) 1 2
      = [(HookFn.dflt "insert", 1, 2), (HookFn.user 9, 1, 2)] :=
  merge_ordering [("insert", HookFn.user 9)] "insert" 9 1 2 (by decide) rfl

/-! ## createComponent claims -/

/-- Node data of the built node, when one was built. -/
def ccResultData : CCResult → Option VNodeData
  | CCResult.vnode v => some v.data
  | _ => none

/-- Test fixture: collaborators with an inert extend, a not-ready async
resolver, and a resolveConstructorOptions that re-resolves to the options
already on the constructor. -/
def extId : Ext :=
  { extend := fun _ => ComponentRef.undef,
    resolveAsync := fun _ => none,
    resolveCtorOptions := fun f => f.options }

/-- Test fixture: unremarkable constructor options. -/
def optsPlain : COptions :=
  { name := none, functional := false, abstract := false,
    model := none, props := [] }

/-- Test fixture: a ready constructor, as an async resolver returns it. -/
def ctorReady : FnRef := { cid := some 3, options := optsPlain }

/-- Test fixture: collaborators whose async resolver is ready. -/
def extReady : Ext := { extId with resolveAsync := fun _ => some ctorReady }

/-- Test fixture: an async factory, a function value without cid. -/
def asyncFac : FnRef := { cid := none, options := optsPlain }

/-- Test fixture: a constructor marked abstract. -/
def fAbs : FnRef :=
  { cid := some 1, options := { optsPlain with abstract := true } }

/-- Test fixture: data carrying one custom click listener. -/
def dAbs : VNodeData :=
  { VNodeData.empty with «on» := some [("click", ListenerVal.single 1)] }

/-- Test fixture: a constructor declaring the prop value. -/
def fVal : FnRef :=
  { cid := some 2, options := { optsPlain with props := ["value"] } }

/-- Test fixture: data with a v-model descriptor and no input listener. -/
def dModelNone : VNodeData :=
  { VNodeData.empty with model := some { value := 5, callback := 4 } }

/-- Test fixture: data with a v-model descriptor and one other input
listener. -/
def dModelOther : VNodeData :=
  { dModelNone with «on» := some [("input", ListenerVal.single 7)] }

/-- Test fixture: data with a v-model descriptor whose callback is already
installed as the input listener. -/
def dModelSame : VNodeData :=
  { dModelNone with «on» := some [("input", ListenerVal.single 4)] }

theorem createComponentMain_asyncFactory (ext : Ext) (f : FnRef)
    (af : Option FnRef) (data0 : Option VNodeData) (children : List Nat)
    (tag : Option String) (hfun : (ext.resolveCtorOptions f).functional = false) :
    ccResultAsyncFactory (createComponentMain ext f af data0 children tag) = af := by
  simp [createComponentMain, ccResultAsyncFactory, hfun]

/-- C10: Undefined reference short-circuit. An undefined Ctor returns
silently, with no warning (the result is the silent empty, not the warned
invalid), and the result does not depend on any collaborator, so no
resolution, hook installation or data mutation takes place. -/
theorem undef_short_circuit (ext ext2 : Ext) (data0 : Option VNodeData)
    (children : List Nat) (tag : Option String) :
    createComponent ext ComponentRef.undef data0 children tag
      = CCResult.empty ∧
    createComponent ext ComponentRef.undef data0 children tag
      = createComponent ext2 ComponentRef.undef data0 children tag :=
  ⟨rfl, rfl⟩

/-- C8: Invalid definition handling. Any non-undefined reference that is
still not a function after the definition-object compile step makes
createComponent warn and return no node: the result is the warned invalid,
so no placeholder node is constructed and no hooks are installed. -/
theorem invalid_definition_no_node (ext : Ext) (c : ComponentRef)
    (data0 : Option VNodeData) (children : List Nat) (tag : Option String)
    (hne : c ≠ ComponentRef.undef)
    (hnf : ∀ f : FnRef, normalizeRef ext c ≠ ComponentRef.fn f) :
    createComponent ext c data0 children tag = CCResult.invalid := by
  cases c with
  | undef => exact absurd rfl hne
  | objDef o =>
    cases hn : normalizeRef ext (ComponentRef.objDef o) with
    | fn f => exact absurd hn (hnf f)
    | undef => simp [createComponent, hn]
    | objDef o2 => simp [createComponent, hn]
    | otherVal s => simp [createComponent, hn]
  | fn f => exact absurd rfl (hnf f)
  | otherVal s => simp [createComponent, normalizeRef]

/-- C8 witness: a string is not a component definition. -/
theorem invalid_definition_no_node_witness :
    createComponent extId (ComponentRef.otherVal "foo") none [] none
      = CCResult.invalid :=
  invalid_definition_no_node extId (ComponentRef.otherVal "foo") none [] none
    (by decide) (fun f h => ComponentRef.noConfusion h)

/-- C6: Async two-pass resolution. A function without cid is an async
factory: while the resolver returns undefined the result is the async
placeholder built from that same factory; once the resolver returns a
constructor, createComponent proceeds down the normal path and the real
component node carries the factory in its asyncFactory slot. -/
theorem async_two_pass (ext1 ext2 : Ext) (f f1 : FnRef)
    (data0 : Option VNodeData) (children : List Nat) (tag : Option String)
    (hcid : f.cid = none)
    (h1 : ext1.resolveAsync f = none)
    (h2 : ext2.resolveAsync f = some f1)
    (hfun : (ext2.resolveCtorOptions f1).functional = false) :
    createComponent ext1 (ComponentRef.fn f) data0 children tag
      = CCResult.asyncPlaceholder f data0 children tag ∧
    createComponent ext2 (ComponentRef.fn f) data0 children tag
      = createComponentMain ext2 f1 (some f) data0 children tag ∧
    ccResultAsyncFactory
        (createComponent ext2 (ComponentRef.fn f) data0 children tag)
      = some f := by
  have e2 : createComponent ext2 (ComponentRef.fn f) data0 children tag
      = createComponentMain ext2 f1 (some f) data0 children tag := by
    simp [createComponent, normalizeRef, hcid, h2]
  refine ⟨by simp [createComponent, normalizeRef, hcid, h1], e2, ?_⟩
  rw [e2]
  exact createComponentMain_asyncFactory ext2 f1 (some f) data0 children tag hfun

/-- C6 witness: one not-ready pass and one ready pass on the same factory. -/
theorem async_two_pass_witness :
    createComponent extId (ComponentRef.fn asyncFac) none [] none
      = CCResult.asyncPlaceholder asyncFac none [] none ∧
    createComponent extReady (ComponentRef.fn asyncFac) none [] none
      = createComponentMain extReady ctorReady (some asyncFac) none [] none ∧
    ccResultAsyncFactory
        (createComponent extReady (ComponentRef.fn asyncFac) none [] none)
      = some asyncFac :=
  async_two_pass extId extReady asyncFac ctorReady none [] none
    rfl rfl rfl rfl

/-- C7 counterexample: for an abstract constructor with a custom click
listener in data.on, the built node keeps that listener in
componentOptions.listeners while the post-strip node data carries no
listeners at all, so the listeners are not read from the data bag as it
stands after the abstract strip: the claimed step order (strip before
listener separation) does not match the code. -/
theorem abstract_order_counterexample :
    ccResultListeners
        (createComponent extId (ComponentRef.fn fAbs) (some dAbs) [] none)
      = some [("click", ListenerVal.single 1)] ∧
    ccResultDataOn
        (createComponent extId (ComponentRef.fn fAbs) (some dAbs) [] none)
      = none ∧
    ccResultListeners
        (createComponent extId (ComponentRef.fn fAbs) (some dAbs) [] none)
      ≠ ccResultDataOn
        (createComponent extId (ComponentRef.fn fAbs) (some dAbs) [] none) :=
  ⟨rfl, rfl, by decide⟩

/-- C7 amended: the separation of custom listeners happens before the
abstract strip, so for an abstract constructor the listeners placed in
componentOptions.listeners are the data.on of the bag as it stood before
the strip, while the node data itself is stripped to the slot marker alone
(plus the installed hooks), discarding even the native listeners just
moved onto data.on. -/
theorem abstract_listener_separation (ext : Ext) (f : FnRef) (af : Option FnRef)
    (d : VNodeData) (children : List Nat) (tag : Option String)
    (habs : (ext.resolveCtorOptions f).abstract = true)
    (hfun : (ext.resolveCtorOptions f).functional = false)
    (hmodel : d.model = none) :
    ccResultListeners (createComponentMain ext f af (some d) children tag)
      = d.«on» ∧
    ccResultData (createComponentMain ext f af (some d) children tag)
      = some (installComponentHooks
          { VNodeData.empty with slot := jsSlot d.slot }) := by
  constructor <;>
    simp [createComponentMain, ccResultListeners, ccResultData,
      habs, hfun, hmodel]

/-- C7 amended witness: the abstract fixture keeps its click listener in
componentOptions.listeners and a stripped data bag on the node. -/
theorem abstract_listener_separation_witness :
    ccResultListeners (createComponentMain extId fAbs none (some dAbs) [] none)
      = dAbs.«on» ∧
    ccResultData (createComponentMain extId fAbs none (some dAbs) [] none)
      = some (installComponentHooks
          { VNodeData.empty with slot := jsSlot dAbs.slot }) :=
  abstract_listener_separation extId fAbs none dAbs [] none rfl rfl rfl

/-- C9: Binding transform. With unspecified binding names (defaulting to
value and input) and model = (value 5, callback cb): with no existing
input listener the built node has propsData value 5 and listener input cb;
with an existing different listener g the entry becomes the array [cb, g],
the new callback prepended and the single entry promoted; an identical
callback already present is not added twice. -/
theorem binding_transform (ext : Ext) (f : FnRef) (af : Option FnRef)
    (children : List Nat) (tag : Option String) (d1 d2 d3 : VNodeData)
    (cb g : Nat)
    (hmo : (ext.resolveCtorOptions f).model = none)
    (hfun : (ext.resolveCtorOptions f).functional = false)
    (hprops : (ext.resolveCtorOptions f).props = ["value"])
    (h1m : d1.model = some { value := 5, callback := cb })
    (h1on : d1.«on» = none)
    (h2m : d2.model = some { value := 5, callback := cb })
    (h2on : d2.«on» = some [("input", ListenerVal.single g)])
    (hgcb : g ≠ cb)
    (h3m : d3.model = some { value := 5, callback := cb })
    (h3on : d3.«on» = some [("input", ListenerVal.single cb)]) :
    alGet (ccResultPropsData
        (createComponentMain ext f af (some d1) children tag)) "value"
      = some 5 ∧
    alGet ((ccResultListeners
        (createComponentMain ext f af (some d1) children tag)).getD []) "input"
      = some (ListenerVal.single cb) ∧
    alGet ((ccResultListeners
        (createComponentMain ext f af (some d2) children tag)).getD []) "input"
      = some (ListenerVal.arr [cb, g]) ∧
    alGet ((ccResultListeners
        (createComponentMain ext f af (some d3) children tag)).getD []) "input"
      = some (ListenerVal.single cb) := by
  refine ⟨?_, ?_, ?_, ?_⟩ <;>
    simp [createComponentMain, ccResultPropsData, ccResultListeners,
      transformModel, extractPropsFromVNodeData, jsOr,
      hmo, hfun, hprops, h1m, h1on, h2m, h2on, hgcb, h3m, h3on,
      alGet_alSet_self, alGet, alSet]

/-- C9 witness: the three scenarios on concrete data bags, with cb 4 and
g 7. -/
theorem binding_transform_witness :
    alGet (ccResultPropsData
        (createComponentMain extId fVal none (some dModelNone) [] none)) "value"
      = some 5 ∧
    alGet ((ccResultListeners
        (createComponentMain extId fVal none (some dModelNone) [] none)).getD [])
        "input"
      = some (ListenerVal.single 4) ∧
    alGet ((ccResultListeners
        (createComponentMain extId fVal none (some dModelOther) [] none)).getD [])
        "input"
      = some (ListenerVal.arr [4, 7]) ∧
    alGet ((ccResultListeners
        (createComponentMain extId fVal none (some dModelSame) [] none)).getD [])
        "input"
      = some (ListenerVal.single 4) :=
  binding_transform extId fVal none [] none dModelNone dModelOther dModelSame
    4 7 rfl rfl rfl rfl rfl rfl rfl (by decide) rfl rfl

end CreateComponentSpec
